import Mathlib

/-!
Verification of the structured-record-validator micro-framework assumed by the
repository's pydantic snippets (`serialization.py`, `field_validator.py`,
`computed_filed.py`, `nested_models.py`).

The schemas (field names, declared types, bounds, computed fields, nesting)
are translated from the source files.  The validation machinery itself
(pydantic's `construct`/`model_dump` behaviour) is not part of the repository's
own code, so it is modelled from the specification: per-field lookup, type
coercion, constraint check and custom rule in declaration order, fail-fast,
unknown keys ignored, recursive export.
-/

/-- Untyped values of a raw input mapping (the shallow embedding of the plain
Python values the snippets feed to the models). -/
inductive Value where
  | str (s : String)
  | int (n : ℤ)
  | rat (q : ℚ)
  | bool (b : Bool)
  | list (xs : List Value)
  | map (m : List (String × Value))
  | null

/-- A raw input mapping: ordered association list from field name to value. -/
def RawInput : Type := List (String × Value)

/-- Modelled from the spec: the error taxonomy of section 7
(`MissingFieldError`, `TypeError`, `ConstraintError`, `CustomValidationError`,
`NestedValidationError`). -/
inductive ValidationError where
  | missingField (field : String)
  | typeError (field : String)
  | constraintError (field : String)
  | customValidationError (field : String)
  | nestedValidationError (field : String) (err : ValidationError)
deriving DecidableEq

/-- Whether an error is a `MissingFieldError` (of any field). -/
def ValidationError.isMissingField : ValidationError → Bool
  | .missingField _ => true
  | _ => false

/-- Look a field up in a raw input mapping by name (first occurrence). -/
def lookupRaw (raw : RawInput) (f : String) : Option Value :=
  (List.find? (fun p => p.1 == f) raw).map (·.2)

/-- Modelled from the spec, step (a) of `construct`: look the field up in the
raw input, failing with `MissingFieldError` when it is absent. -/
def reqField (raw : RawInput) (f : String) : Except ValidationError Value :=
  match lookupRaw raw f with
  | some v => .ok v
  | none => .error (.missingField f)

/-- Modelled from the spec, step (b): check a value against declared type
`str`. -/
def asStr (f : String) : Value → Except ValidationError String
  | .str s => .ok s
  | _ => .error (.typeError f)

/-- Modelled from the spec, step (b): check a value against declared type
`int`. -/
def asInt (f : String) : Value → Except ValidationError ℤ
  | .int n => .ok n
  | _ => .error (.typeError f)

/-- Modelled from the spec, step (b): coerce a value to declared type `float`
(an integer input is coerced, as pydantic does for `weight=70`). -/
def asFloat (f : String) : Value → Except ValidationError ℚ
  | .rat q => .ok q
  | .int n => .ok (n : ℚ)
  | _ => .error (.typeError f)

/-- The string carried by a value, `none` for non-strings. -/
def strOfValue : Value → Option String
  | .str s => some s
  | _ => none

/-- A key paired with its string value, `none` for non-string values. -/
def strPairOfValue : String × Value → Option (String × String)
  | (k, .str s) => some (k, s)
  | (_, _) => none

/-- Modelled from the spec, step (b): check a value against declared type
`list[str]`. -/
def asStrList (f : String) : Value → Except ValidationError (List String)
  | .list xs =>
    match xs.mapM strOfValue with
    | some ss => .ok ss
    | none => .error (.typeError f)
  | _ => .error (.typeError f)

/-- Modelled from the spec, step (b): check a value against declared type
`dict[str,str]`. -/
def asStrMap (f : String) : Value → Except ValidationError (List (String × String))
  | .map m =>
    match m.mapM strPairOfValue with
    | some kvs => .ok kvs
    | none => .error (.typeError f)
  | _ => .error (.typeError f)

/-- Split a character list at every occurrence of the separator `c`. -/
def splitOnChar (c : Char) : List Char → List (List Char)
  | [] => [[]]
  | x :: xs =>
    if x = c then [] :: splitOnChar c xs
    else
      match splitOnChar c xs with
      | [] => [[x]]
      | y :: ys => (x :: y) :: ys

/-- Split a character list at the first occurrence of `c`; `none` when `c`
does not occur. -/
def breakAtChar (c : Char) : List Char → Option (List Char × List Char)
  | [] => none
  | x :: xs =>
    if x = c then some ([], xs)
    else (breakAtChar c xs).map (fun p => (x :: p.1, p.2))

/-- Modelled from the spec, step (c): the email string-pattern check backing
`EmailStr` (exactly one `@`, a nonempty local part, a dotted domain of
nonempty labels). -/
def isValidEmail (s : String) : Bool :=
  match splitOnChar '@' s.toList with
  | [localPart, domain] =>
    !localPart.isEmpty && (splitOnChar '.' domain).length ≥ 2 &&
      (splitOnChar '.' domain).all (fun l => !l.isEmpty)
  | _ => false

/-- Modelled from the spec, step (c): the URL string-pattern check backing
`AnyUrl` (a nonempty scheme, `://`, a nonempty remainder). -/
def isValidUrl (s : String) : Bool :=
  match breakAtChar ':' s.toList with
  | some (scheme, rest) =>
    !scheme.isEmpty &&
      (match rest with
       | '/' :: '/' :: tail => !tail.isEmpty
       | _ => false)
  | none => false

/-- The error of a failed per-field check, `none` when the check passed. -/
def errOf {ε α : Type} : Except ε α → Option ε
  | .error e => some e
  | .ok _ => none

theorem except_pure {ε α : Type} (a : α) :
    (pure a : Except ε α) = .ok a := rfl

theorem except_bind_ok {ε α β : Type} (a : α) (f : α → Except ε β) :
    (Except.ok a >>= f : Except ε β) = f a := rfl

theorem except_bind_err {ε α β : Type} (e : ε) (f : α → Except ε β) :
    (Except.error e >>= f : Except ε β) = .error e := rfl

theorem except_map_ok {ε α β : Type} (f : α → β) (a : α) :
    (f <$> Except.ok a : Except ε β) = .ok (f a) := rfl

theorem except_map_err {ε α β : Type} (f : α → β) (e : ε) :
    (f <$> Except.error e : Except ε β) = .error e := rfl

namespace Serialization

/-- The `User` model of `serialization.py`: `name: str`, `age: int`. -/
structure User where
  name : String
  age : ℤ
deriving DecidableEq

/-- The declared field names of `User`, in declaration order. -/
def User.fieldNames : List String := ["name", "age"]

/-- Modelled from the spec: `construct` for the `User` schema — per-field
lookup and type check in declaration order, fail-fast; unknown keys in the
raw input are ignored. -/
def User.construct (raw : RawInput) : Except ValidationError User := do
  let name ← reqField raw "name" >>= asStr "name"
  let age ← reqField raw "age" >>= asInt "age"
  return ⟨name, age⟩

/-- `model_dump` for `User` (`serialization.py` line 8): the declared fields,
in declaration order, as a plain mapping. -/
def User.model_dump (u : User) : RawInput :=
  [("name", .str u.name), ("age", .int u.age)]

end Serialization

namespace FieldValidator

/-- The `Patient` model of `field_validator.py` (lines 6-15): eight declared
fields in declaration order, with `weight: float = Field(gt=0, lt=120)`,
`linkedin_url: AnyUrl`, `email: EmailStr`, `married: Optional[bool] = None`,
`allergies: list[str]`, `contactz_details: dict[str,str]`.  The file imports
`field_validator` but declares no custom validator on any field. -/
structure Patient where
  name : String
  age : ℤ
  weight : ℚ
  linkedin_url : String
  email : String
  married : Option Bool
  allergies : List String
  contactz_details : List (String × String)

/-- The declared field names of `Patient`, in declaration order. -/
def Patient.fieldNames : List String :=
  ["name", "age", "weight", "linkedin_url", "email", "married", "allergies",
   "contactz_details"]

/-- The required fields of `Patient`: every declared field except `married`,
which has default `None`. -/
def Patient.requiredFields : List String :=
  ["name", "age", "weight", "linkedin_url", "email", "allergies",
   "contactz_details"]

/-- Per-field validation of `name: str`. -/
def checkName (raw : RawInput) : Except ValidationError String :=
  reqField raw "name" >>= asStr "name"

/-- Per-field validation of `age: int`. -/
def checkAge (raw : RawInput) : Except ValidationError ℤ :=
  reqField raw "age" >>= asInt "age"

/-- Per-field validation of `weight: float = Field(gt=0, lt=120)`: lookup,
numeric coercion, then the declared bounds, which fail with
`ConstraintError`. -/
def checkWeight (raw : RawInput) : Except ValidationError ℚ := do
  let w ← reqField raw "weight" >>= asFloat "weight"
  if 0 < w ∧ w < 120 then pure w else throw (.constraintError "weight")

/-- Per-field validation of `linkedin_url: AnyUrl`: lookup, string check,
then the URL pattern, which fails with `ConstraintError`. -/
def checkUrl (raw : RawInput) : Except ValidationError String := do
  let u ← reqField raw "linkedin_url" >>= asStr "linkedin_url"
  if isValidUrl u then pure u else throw (.constraintError "linkedin_url")

/-- Per-field validation of `email: EmailStr`: lookup, string check, then the
email pattern, which fails with `ConstraintError`.  No custom validation rule
is declared for this field in `field_validator.py`, so none is applied. -/
def checkEmail (raw : RawInput) : Except ValidationError String := do
  let e ← reqField raw "email" >>= asStr "email"
  if isValidEmail e then pure e else throw (.constraintError "email")

/-- Per-field validation of `married: Optional[bool] = None`: an absent or
`None` value resolves to the declared default `None` instead of failing. -/
def checkMarried (raw : RawInput) : Except ValidationError (Option Bool) :=
  match lookupRaw raw "married" with
  | none => .ok none
  | some .null => .ok none
  | some (.bool b) => .ok (some b)
  | some _ => .error (.typeError "married")

/-- Per-field validation of `allergies: list[str]`. -/
def checkAllergies (raw : RawInput) : Except ValidationError (List String) :=
  reqField raw "allergies" >>= asStrList "allergies"

/-- Per-field validation of `contactz_details: dict[str,str]`. -/
def checkContactz (raw : RawInput) : Except ValidationError (List (String × String)) :=
  reqField raw "contactz_details" >>= asStrMap "contactz_details"

/-- Modelled from the spec: `construct` for the `Patient` schema — the
per-field checks run in declaration order and the first failure aborts
construction (fail-fast, all-or-nothing). -/
def Patient.construct (raw : RawInput) : Except ValidationError Patient := do
  let name ← checkName raw
  let age ← checkAge raw
  let weight ← checkWeight raw
  let linkedin_url ← checkUrl raw
  let email ← checkEmail raw
  let married ← checkMarried raw
  let allergies ← checkAllergies raw
  let contactz_details ← checkContactz raw
  return ⟨name, age, weight, linkedin_url, email, married, allergies,
          contactz_details⟩

/-- `model_dump` for `Patient`: the declared fields, in declaration order, as
a plain mapping. -/
def Patient.model_dump (p : Patient) : RawInput :=
  [("name", .str p.name), ("age", .int p.age), ("weight", .rat p.weight),
   ("linkedin_url", .str p.linkedin_url), ("email", .str p.email),
   ("married", match p.married with | some b => .bool b | none => .null),
   ("allergies", .list (p.allergies.map .str)),
   ("contactz_details", .map (p.contactz_details.map fun kv => (kv.1, .str kv.2)))]

/-- The outcome of every per-field check, in declaration order: the field name
paired with its error, `none` when the field validates. -/
def Patient.fieldOutcomes (raw : RawInput) : List (String × Option ValidationError) :=
  [("name", errOf (checkName raw)), ("age", errOf (checkAge raw)),
   ("weight", errOf (checkWeight raw)), ("linkedin_url", errOf (checkUrl raw)),
   ("email", errOf (checkEmail raw)), ("married", errOf (checkMarried raw)),
   ("allergies", errOf (checkAllergies raw)),
   ("contactz_details", errOf (checkContactz raw))]

/-- The per-field errors of a raw input, in declaration order. -/
def Patient.fieldErrors (raw : RawInput) : List ValidationError :=
  (Patient.fieldOutcomes raw).filterMap (·.2)

/-- Every field declared strictly before `f` validates successfully. -/
def Patient.checksBefore (raw : RawInput) (f : String) : Prop :=
  ∀ x ∈ (Patient.fieldOutcomes raw).takeWhile (fun p => !(p.1 == f)), x.2 = none

instance (raw : RawInput) (f : String) : Decidable (Patient.checksBefore raw f) := by
  unfold Patient.checksBefore
  infer_instance

/-- A valid raw input for the `Patient` schema: every declared field is
present with its declared type and satisfies its declared constraints. -/
def Patient.validInput (raw : RawInput) : Prop :=
  (∃ s, lookupRaw raw "name" = some (.str s)) ∧
  (∃ n, lookupRaw raw "age" = some (.int n)) ∧
  (∃ w, lookupRaw raw "weight" = some (.rat w) ∧ 0 < w ∧ w < 120) ∧
  (∃ u, lookupRaw raw "linkedin_url" = some (.str u) ∧ isValidUrl u = true) ∧
  (∃ e, lookupRaw raw "email" = some (.str e) ∧ isValidEmail e = true) ∧
  (∃ b, lookupRaw raw "married" = some (.bool b)) ∧
  (∃ ss : List String, lookupRaw raw "allergies" = some (.list (ss.map .str))) ∧
  (∃ kvs : List (String × String), lookupRaw raw "contactz_details" =
    some (.map (kvs.map fun kv => (kv.1, Value.str kv.2))))

/-- The `patient_info` literal of `field_validator.py` (line 27), with the
`weight` entry abstracted. -/
def patientInfoW (w : Value) : RawInput :=
  [("name", .str "pratik"), ("age", .int 19), ("weight", w),
   ("linkedin_url", .str "https://chatgpt.com/c/692d18b8-a5e0-8320-9b79-b6cc4e8cf5e1"),
   ("email", .str "pratik@gmail.com"), ("married", .bool true),
   ("allergies", .list [.str "pratik"]),
   ("contactz_details", .map [("phone", .str "8788417313")])]

/-- The `patient_info` literal of `field_validator.py` (line 27), with the
`email` entry abstracted. -/
def patientInfoE (e : String) : RawInput :=
  [("name", .str "pratik"), ("age", .int 19), ("weight", .rat (2267/50)),
   ("linkedin_url", .str "https://chatgpt.com/c/692d18b8-a5e0-8320-9b79-b6cc4e8cf5e1"),
   ("email", .str e), ("married", .bool true),
   ("allergies", .list [.str "pratik"]),
   ("contactz_details", .map [("phone", .str "8788417313")])]

/-- The `patient_info` literal of `field_validator.py` (line 27);
`45.34 = 2267/50`. -/
def patientInfo : RawInput := patientInfoW (.rat (2267/50))

end FieldValidator

namespace ComputedField

/-- Python division, which is fallible: dividing by zero raises
`ZeroDivisionError`, embedded as `none`. -/
def pydiv (a b : ℚ) : Option ℚ :=
  if b = 0 then none else some (a / b)

/-- Python's `round` to the nearest integer, ties to even (banker's
rounding), on the exact rational value. -/
def roundHalfEven (x : ℚ) : ℤ :=
  if x - ⌊x⌋ < 1/2 then ⌊x⌋
  else if 1/2 < x - ⌊x⌋ then ⌊x⌋ + 1
  else if ⌊x⌋ % 2 = 0 then ⌊x⌋ else ⌊x⌋ + 1

/-- Python's `round(x, 2)` on the exact rational value. -/
def pyround2 (x : ℚ) : ℚ := (roundHalfEven (x * 100) : ℚ) / 100

/-- The `Patient` model of `computed_filed.py` (lines 4-11): declared fields
`weight: float` and `height: float`; `BMI` is computed, not declared. -/
structure Patient where
  weight : ℚ
  height : ℚ

/-- Modelled from the spec: `construct` for this schema — only the two
declared fields are read from the raw input; the computed field is not. -/
def Patient.construct (raw : RawInput) : Except ValidationError Patient := do
  let weight ← reqField raw "weight" >>= asFloat "weight"
  let height ← reqField raw "height" >>= asFloat "height"
  return ⟨weight, height⟩

/-- The computed field `BMI` of `computed_filed.py` (lines 8-11):
`round(self.weight/(self.height**2), 2)`, derived only from the validated
`weight` and `height`.  The division is Python division, so the derivation
is `none` when `height**2 = 0`. -/
def Patient.BMI (p : Patient) : Option ℚ :=
  (pydiv p.weight (p.height ^ 2)).map pyround2

/-- `model_dump` for this schema: the declared fields followed by the
computed field `BMI`; evaluating `BMI` can itself divide by zero, making the
export fallible. -/
def Patient.model_dump (p : Patient) : Option RawInput :=
  match p.BMI with
  | some b => some [("weight", .rat p.weight), ("height", .rat p.height),
                    ("BMI", .rat b)]
  | none => none

end ComputedField

namespace NestedModels

/-- The `Address` model of `nested_models.py` (lines 3-6): `city: str`,
`state: str`, `pincode: int`. -/
structure Address where
  city : String
  state : String
  pincode : ℤ

/-- Modelled from the spec: `construct` for the `Address` schema. -/
def Address.construct (raw : RawInput) : Except ValidationError Address := do
  let city ← reqField raw "city" >>= asStr "city"
  let state ← reqField raw "state" >>= asStr "state"
  let pincode ← reqField raw "pincode" >>= asInt "pincode"
  return ⟨city, state, pincode⟩

/-- `model_dump` for `Address`: a plain mapping of its three fields. -/
def Address.model_dump (a : Address) : RawInput :=
  [("city", .str a.city), ("state", .str a.state), ("pincode", .int a.pincode)]

/-- The `Patient` model of `nested_models.py` (lines 8-11): `name: str`,
`age: int`, `address: Address` — a nested record field. -/
structure Patient where
  name : String
  age : ℤ
  address : Address

/-- Modelled from the spec: `construct` for the parent schema — the nested
`address` field is recursively constructed from its sub-mapping, and a
nested failure propagates tagged with the parent field's name. -/
def Patient.construct (raw : RawInput) : Except ValidationError Patient := do
  let name ← reqField raw "name" >>= asStr "name"
  let age ← reqField raw "age" >>= asInt "age"
  let address ←
    match ← reqField raw "address" with
    | .map m => (Address.construct m).mapError (.nestedValidationError "address")
    | _ => Except.error (.typeError "address")
  return ⟨name, age, address⟩

/-- `model_dump` for the parent schema: the nested `Address` instance is
recursively expanded into a plain mapping. -/
def Patient.model_dump (p : Patient) : RawInput :=
  [("name", .str p.name), ("age", .int p.age),
   ("address", .map (Address.model_dump p.address))]

end NestedModels

namespace FieldValidator

theorem construct_error_iff (raw : RawInput) (e : ValidationError) :
    Patient.construct raw = .error e ↔ (Patient.fieldErrors raw).head? = some e := by
  unfold Patient.construct Patient.fieldErrors Patient.fieldOutcomes
  cases h1 : checkName raw with
  | error e1 => simp [h1, errOf, except_bind_err]
  | ok v1 =>
    simp only [h1, except_bind_ok, errOf, List.filterMap_cons]
    cases h2 : checkAge raw with
    | error e2 => simp [h2, errOf, except_bind_err]
    | ok v2 =>
      simp only [h2, except_bind_ok, errOf, List.filterMap_cons]
      cases h3 : checkWeight raw with
      | error e3 => simp [h3, errOf, except_bind_err]
      | ok v3 =>
        simp only [h3, except_bind_ok, errOf, List.filterMap_cons]
        cases h4 : checkUrl raw with
        | error e4 => simp [h4, errOf, except_bind_err]
        | ok v4 =>
          simp only [h4, except_bind_ok, errOf, List.filterMap_cons]
          cases h5 : checkEmail raw with
          | error e5 => simp [h5, errOf, except_bind_err]
          | ok v5 =>
            simp only [h5, except_bind_ok, errOf, List.filterMap_cons]
            cases h6 : checkMarried raw with
            | error e6 => simp [h6, errOf, except_bind_err]
            | ok v6 =>
              simp only [h6, except_bind_ok, errOf, List.filterMap_cons]
              cases h7 : checkAllergies raw with
              | error e7 => simp [h7, errOf, except_bind_err, except_map_err, except_map_ok]
              | ok v7 =>
                simp only [h7, except_bind_ok, errOf, List.filterMap_cons]
                cases h8 : checkContactz raw with
                | error e8 => simp [h8, errOf, except_map_err]
                | ok v8 => simp [h8, errOf, except_map_ok]

theorem construct_ok_iff (raw : RawInput) (p : Patient) :
    Patient.construct raw = .ok p ↔
      checkName raw = .ok p.name ∧ checkAge raw = .ok p.age ∧
      checkWeight raw = .ok p.weight ∧ checkUrl raw = .ok p.linkedin_url ∧
      checkEmail raw = .ok p.email ∧ checkMarried raw = .ok p.married ∧
      checkAllergies raw = .ok p.allergies ∧
      checkContactz raw = .ok p.contactz_details := by
  obtain ⟨pn, pa, pw, pu, pe, pm, pal, pc⟩ := p
  unfold Patient.construct
  cases h1 : checkName raw with
  | error e1 => simp [h1, except_bind_err]
  | ok v1 =>
    simp only [h1, except_bind_ok]
    cases h2 : checkAge raw with
    | error e2 => simp [h2, except_bind_err]
    | ok v2 =>
      simp only [h2, except_bind_ok]
      cases h3 : checkWeight raw with
      | error e3 => simp [h3, except_bind_err]
      | ok v3 =>
        simp only [h3, except_bind_ok]
        cases h4 : checkUrl raw with
        | error e4 => simp [h4, except_bind_err]
        | ok v4 =>
          simp only [h4, except_bind_ok]
          cases h5 : checkEmail raw with
          | error e5 => simp [h5, except_bind_err]
          | ok v5 =>
            simp only [h5, except_bind_ok]
            cases h6 : checkMarried raw with
            | error e6 => simp [h6, except_bind_err]
            | ok v6 =>
              simp only [h6, except_bind_ok]
              cases h7 : checkAllergies raw with
              | error e7 => simp [h7, except_bind_err, except_map_err, except_map_ok]
              | ok v7 =>
                simp only [h7, except_bind_ok]
                cases h8 : checkContactz raw with
                | error e8 => simp [h8, except_map_err]
                | ok v8 => simp [h8, except_map_ok, Patient.mk.injEq]

theorem errOf_eq_none {ε α : Type} (x : Except ε α) :
    errOf x = none ↔ ∃ v, x = .ok v := by
  cases x <;> simp [errOf]

theorem checkName_of_missing (raw : RawInput) (h : lookupRaw raw "name" = none) :
    checkName raw = .error (.missingField "name") := by
  unfold checkName reqField
  rw [h]
  rfl

theorem checkAge_of_missing (raw : RawInput) (h : lookupRaw raw "age" = none) :
    checkAge raw = .error (.missingField "age") := by
  unfold checkAge reqField
  rw [h]
  rfl

theorem checkWeight_of_missing (raw : RawInput) (h : lookupRaw raw "weight" = none) :
    checkWeight raw = .error (.missingField "weight") := by
  unfold checkWeight reqField
  rw [h]
  rfl

theorem checkUrl_of_missing (raw : RawInput) (h : lookupRaw raw "linkedin_url" = none) :
    checkUrl raw = .error (.missingField "linkedin_url") := by
  unfold checkUrl reqField
  rw [h]
  rfl

theorem checkEmail_of_missing (raw : RawInput) (h : lookupRaw raw "email" = none) :
    checkEmail raw = .error (.missingField "email") := by
  unfold checkEmail reqField
  rw [h]
  rfl

theorem checkAllergies_of_missing (raw : RawInput) (h : lookupRaw raw "allergies" = none) :
    checkAllergies raw = .error (.missingField "allergies") := by
  unfold checkAllergies reqField
  rw [h]
  rfl

theorem checkContactz_of_missing (raw : RawInput)
    (h : lookupRaw raw "contactz_details" = none) :
    checkContactz raw = .error (.missingField "contactz_details") := by
  unfold checkContactz reqField
  rw [h]
  rfl

theorem checkName_patientInfoW (v : Value) :
    checkName (patientInfoW v) = .ok "pratik" := rfl

theorem checkAge_patientInfoW (v : Value) :
    checkAge (patientInfoW v) = .ok 19 := rfl

theorem checkWeight_patientInfoW (w : ℚ) :
    checkWeight (patientInfoW (.rat w)) =
      if 0 < w ∧ w < 120 then .ok w else .error (.constraintError "weight") := rfl

theorem checkUrl_patientInfoW (v : Value) :
    checkUrl (patientInfoW v) =
      .ok "https://chatgpt.com/c/692d18b8-a5e0-8320-9b79-b6cc4e8cf5e1" := rfl

theorem checkEmail_patientInfoW (v : Value) :
    checkEmail (patientInfoW v) = .ok "pratik@gmail.com" := rfl

theorem checkMarried_patientInfoW (v : Value) :
    checkMarried (patientInfoW v) = .ok (some true) := rfl

theorem checkAllergies_patientInfoW (v : Value) :
    checkAllergies (patientInfoW v) = .ok ["pratik"] := rfl

theorem checkContactz_patientInfoW (v : Value) :
    checkContactz (patientInfoW v) = .ok [("phone", "8788417313")] := rfl

theorem construct_patientInfoW (w : ℚ) :
    Patient.construct (patientInfoW (.rat w)) =
      if 0 < w ∧ w < 120 then
        .ok ⟨"pratik", 19, w,
             "https://chatgpt.com/c/692d18b8-a5e0-8320-9b79-b6cc4e8cf5e1",
             "pratik@gmail.com", some true, ["pratik"],
             [("phone", "8788417313")]⟩
      else .error (.constraintError "weight") := by
  by_cases hc : 0 < w ∧ w < 120
  · simp only [Patient.construct, checkName_patientInfoW, checkAge_patientInfoW,
      checkWeight_patientInfoW, checkUrl_patientInfoW, checkEmail_patientInfoW,
      checkMarried_patientInfoW, checkAllergies_patientInfoW,
      checkContactz_patientInfoW, if_pos hc, except_bind_ok, except_map_ok,
      except_pure]
  · simp only [Patient.construct, checkName_patientInfoW, checkAge_patientInfoW,
      checkWeight_patientInfoW, checkUrl_patientInfoW, checkEmail_patientInfoW,
      checkMarried_patientInfoW, checkAllergies_patientInfoW,
      checkContactz_patientInfoW, if_neg hc, except_bind_ok, except_bind_err,
      except_map_ok]

/-- C2: for the `weight` field declared `Field(gt=0, lt=120)` in
`field_validator.py`, with every other field of `patient_info` valid,
construction fails with `ConstraintError` exactly when the supplied weight is
at or outside the bounds and succeeds exactly when it is strictly inside;
in particular weight `0` fails, `120` fails, and `119.9` succeeds. -/
theorem c2_weight_bounds :
    (∀ w : ℚ,
      (Patient.construct (patientInfoW (.rat w)) =
          .error (.constraintError "weight") ↔ w ≤ 0 ∨ 120 ≤ w) ∧
      ((∃ p, Patient.construct (patientInfoW (.rat w)) = .ok p) ↔
          0 < w ∧ w < 120)) ∧
    Patient.construct (patientInfoW (.rat 0)) =
      .error (.constraintError "weight") ∧
    Patient.construct (patientInfoW (.rat 120)) =
      .error (.constraintError "weight") ∧
    (∃ p, Patient.construct (patientInfoW (.rat (1199/10))) = .ok p) := by
  have general : ∀ w : ℚ,
      (Patient.construct (patientInfoW (.rat w)) =
          .error (.constraintError "weight") ↔ w ≤ 0 ∨ 120 ≤ w) ∧
      ((∃ p, Patient.construct (patientInfoW (.rat w)) = .ok p) ↔
          0 < w ∧ w < 120) := by
    intro w
    rw [construct_patientInfoW w]
    by_cases hc : 0 < w ∧ w < 120
    · have h1 := not_le.mpr hc.1
      have h2 := not_le.mpr hc.2
      simp [hc, hc.1, hc.2, h1, h2]
    · have hor : w ≤ 0 ∨ 120 ≤ w := by
        rcases not_and_or.mp hc with h | h
        · exact Or.inl (not_lt.mp h)
        · exact Or.inr (not_lt.mp h)
      simp [hc, hor]
  refine ⟨general, (general 0).1.mpr (by norm_num),
    (general 120).1.mpr (by norm_num), (general (1199/10)).2.mpr (by norm_num)⟩

/-- C5: validation is fail-fast and atomic for the `Patient` schema of
`field_validator.py` — `construct` fails with error `e` exactly when `e` is
the error of the first failing field in declaration order, and it produces an
instance exactly when no declared field fails (all-or-nothing; by its return
type `construct` never yields a partial instance). -/
theorem c5_fail_fast (raw : RawInput) (e : ValidationError) :
    (Patient.construct raw = .error e ↔
      (Patient.fieldErrors raw).head? = some e) ∧
    ((∃ p, Patient.construct raw = .ok p) ↔ Patient.fieldErrors raw = []) := by
  refine ⟨construct_error_iff raw e, ?_, ?_⟩
  · rintro ⟨p, hp⟩
    cases hfe : Patient.fieldErrors raw with
    | nil => rfl
    | cons a l =>
      have ha : Patient.construct raw = .error a :=
        (construct_error_iff raw a).mpr (by rw [hfe]; rfl)
      rw [ha] at hp
      cases hp
  · intro hfe
    cases hc : Patient.construct raw with
    | ok p => exact ⟨p, rfl⟩
    | error e2 =>
      have := (construct_error_iff raw e2).mp hc
      rw [hfe] at this
      cases this

theorem checkName_patientInfoE (e : String) :
    checkName (patientInfoE e) = .ok "pratik" := rfl

theorem checkAge_patientInfoE (e : String) :
    checkAge (patientInfoE e) = .ok 19 := rfl

theorem checkWeight_patientInfoE (e : String) :
    checkWeight (patientInfoE e) = .ok (2267/50) := by
  have h : (0:ℚ) < 2267/50 ∧ (2267/50:ℚ) < 120 := by norm_num
  show (if (0:ℚ) < 2267/50 ∧ (2267/50:ℚ) < 120
        then (pure (2267/50:ℚ) : Except ValidationError ℚ)
        else throw (.constraintError "weight")) = .ok (2267/50)
  rw [if_pos h]
  rfl

theorem checkUrl_patientInfoE (e : String) :
    checkUrl (patientInfoE e) =
      .ok "https://chatgpt.com/c/692d18b8-a5e0-8320-9b79-b6cc4e8cf5e1" := rfl

theorem checkEmail_patientInfoE (e : String) :
    checkEmail (patientInfoE e) =
      if isValidEmail e then .ok e else .error (.constraintError "email") := rfl

theorem checkMarried_patientInfoE (e : String) :
    checkMarried (patientInfoE e) = .ok (some true) := rfl

theorem checkAllergies_patientInfoE (e : String) :
    checkAllergies (patientInfoE e) = .ok ["pratik"] := rfl

theorem checkContactz_patientInfoE (e : String) :
    checkContactz (patientInfoE e) = .ok [("phone", "8788417313")] := rfl

theorem construct_patientInfoE (e : String) :
    Patient.construct (patientInfoE e) =
      if isValidEmail e then
        .ok ⟨"pratik", 19, 2267/50,
             "https://chatgpt.com/c/692d18b8-a5e0-8320-9b79-b6cc4e8cf5e1",
             e, some true, ["pratik"], [("phone", "8788417313")]⟩
      else .error (.constraintError "email") := by
  by_cases hc : isValidEmail e = true
  · simp only [Patient.construct, checkName_patientInfoE, checkAge_patientInfoE,
      checkWeight_patientInfoE, checkUrl_patientInfoE, checkEmail_patientInfoE,
      checkMarried_patientInfoE, checkAllergies_patientInfoE,
      checkContactz_patientInfoE, if_pos hc, except_bind_ok, except_map_ok,
      except_pure]
  · simp only [Patient.construct, checkName_patientInfoE, checkAge_patientInfoE,
      checkWeight_patientInfoE, checkUrl_patientInfoE, checkEmail_patientInfoE,
      checkMarried_patientInfoE, checkAllergies_patientInfoE,
      checkContactz_patientInfoE, if_neg hc, except_bind_ok, except_bind_err,
      except_map_ok, except_pure]

/-- C6 counterexample: the claim says constructing a `Patient` with
`email="x@yahoo.com"` fails with a `CustomValidationError`, but no custom
validator is declared in `field_validator.py` (the `field_validator` import
is unused), so construction succeeds. -/
theorem c6_yahoo_counterexample :
    Patient.construct (patientInfoE "x@yahoo.com") =
      .ok ⟨"pratik", 19, 2267/50,
           "https://chatgpt.com/c/692d18b8-a5e0-8320-9b79-b6cc4e8cf5e1",
           "x@yahoo.com", some true, ["pratik"], [("phone", "8788417313")]⟩ := by
  rw [construct_patientInfoE, if_pos]
  rfl

/-- C6 (amended): `field_validator.py` declares no custom email rule —
`email` is validated only as a general email pattern (`EmailStr`), so both
`email="x@yahoo.com"` and `email="x@gmail.com"` construct successfully and no
`CustomValidationError` arises. -/
theorem c6_email_no_custom_rule :
    (∃ p, Patient.construct (patientInfoE "x@yahoo.com") = .ok p) ∧
    (∃ p, Patient.construct (patientInfoE "x@gmail.com") = .ok p) := by
  rw [construct_patientInfoE, construct_patientInfoE, if_pos, if_pos]
  · exact ⟨⟨_, rfl⟩, ⟨_, rfl⟩⟩
  · rfl
  · rfl

/-- C3 counterexample: in the raw input `{"name": 5}` the required field
`age` is absent, yet fail-fast construction reports the earlier declared
field's failure — a `TypeError` on `name`, not a `MissingFieldError` — so the
claim does not hold for every input with an absent required field. -/
theorem c3_missing_field_counterexample :
    Patient.construct [("name", Value.int 5)] =
      .error (.typeError "name") ∧
    "age" ∈ Patient.requiredFields ∧
    lookupRaw [("name", Value.int 5)] "age" = none ∧
    (ValidationError.typeError "name").isMissingField = false := by
  refine ⟨rfl, by decide, rfl, rfl⟩

/-- C3 (amended): for every raw input in which a required field (declared
without a default) is absent, construction fails; and when every field
declared before that field validates successfully, the failure is a
`MissingFieldError` naming that field. -/
theorem c3_missing_required_field (raw : RawInput) (f : String)
    (hf : f ∈ Patient.requiredFields) (habs : lookupRaw raw f = none) :
    (∃ e, Patient.construct raw = .error e) ∧
    (Patient.checksBefore raw f →
      Patient.construct raw = .error (.missingField f)) := by
  have hnotok : ∀ p, Patient.construct raw ≠ .ok p := by
    intro p hok
    rw [construct_ok_iff] at hok
    fin_cases hf
    · rw [checkName_of_missing raw habs] at hok
      simp at hok
    · rw [checkAge_of_missing raw habs] at hok
      simp at hok
    · rw [checkWeight_of_missing raw habs] at hok
      simp at hok
    · rw [checkUrl_of_missing raw habs] at hok
      simp at hok
    · rw [checkEmail_of_missing raw habs] at hok
      simp at hok
    · rw [checkAllergies_of_missing raw habs] at hok
      simp at hok
    · rw [checkContactz_of_missing raw habs] at hok
      simp at hok
  constructor
  · cases hc : Patient.construct raw with
    | ok p => exact absurd hc (hnotok p)
    | error e => exact ⟨e, rfl⟩
  · intro hcb
    rw [construct_error_iff]
    fin_cases hf
    · simp [Patient.fieldErrors, Patient.fieldOutcomes,
        checkName_of_missing raw habs, errOf]
    · obtain ⟨v1, hv1⟩ := (errOf_eq_none _).mp
        (hcb ("name", errOf (checkName raw)) (List.Mem.head _))
      simp [Patient.fieldErrors, Patient.fieldOutcomes, hv1,
        checkAge_of_missing raw habs, errOf]
    · obtain ⟨v1, hv1⟩ := (errOf_eq_none _).mp
        (hcb ("name", errOf (checkName raw)) (List.Mem.head _))
      obtain ⟨v2, hv2⟩ := (errOf_eq_none _).mp
        (hcb ("age", errOf (checkAge raw)) (List.Mem.tail _ (List.Mem.head _)))
      simp [Patient.fieldErrors, Patient.fieldOutcomes, hv1, hv2,
        checkWeight_of_missing raw habs, errOf]
    · obtain ⟨v1, hv1⟩ := (errOf_eq_none _).mp
        (hcb ("name", errOf (checkName raw)) (List.Mem.head _))
      obtain ⟨v2, hv2⟩ := (errOf_eq_none _).mp
        (hcb ("age", errOf (checkAge raw)) (List.Mem.tail _ (List.Mem.head _)))
      obtain ⟨v3, hv3⟩ := (errOf_eq_none _).mp
        (hcb ("weight", errOf (checkWeight raw))
          (List.Mem.tail _ (List.Mem.tail _ (List.Mem.head _))))
      simp [Patient.fieldErrors, Patient.fieldOutcomes, hv1, hv2, hv3,
        checkUrl_of_missing raw habs, errOf]
    · obtain ⟨v1, hv1⟩ := (errOf_eq_none _).mp
        (hcb ("name", errOf (checkName raw)) (List.Mem.head _))
      obtain ⟨v2, hv2⟩ := (errOf_eq_none _).mp
        (hcb ("age", errOf (checkAge raw)) (List.Mem.tail _ (List.Mem.head _)))
      obtain ⟨v3, hv3⟩ := (errOf_eq_none _).mp
        (hcb ("weight", errOf (checkWeight raw))
          (List.Mem.tail _ (List.Mem.tail _ (List.Mem.head _))))
      obtain ⟨v4, hv4⟩ := (errOf_eq_none _).mp
        (hcb ("linkedin_url", errOf (checkUrl raw))
          (List.Mem.tail _ (List.Mem.tail _ (List.Mem.tail _ (List.Mem.head _)))))
      simp [Patient.fieldErrors, Patient.fieldOutcomes, hv1, hv2, hv3, hv4,
        checkEmail_of_missing raw habs, errOf]
    · obtain ⟨v1, hv1⟩ := (errOf_eq_none _).mp
        (hcb ("name", errOf (checkName raw)) (List.Mem.head _))
      obtain ⟨v2, hv2⟩ := (errOf_eq_none _).mp
        (hcb ("age", errOf (checkAge raw)) (List.Mem.tail _ (List.Mem.head _)))
      obtain ⟨v3, hv3⟩ := (errOf_eq_none _).mp
        (hcb ("weight", errOf (checkWeight raw))
          (List.Mem.tail _ (List.Mem.tail _ (List.Mem.head _))))
      obtain ⟨v4, hv4⟩ := (errOf_eq_none _).mp
        (hcb ("linkedin_url", errOf (checkUrl raw))
          (List.Mem.tail _ (List.Mem.tail _ (List.Mem.tail _ (List.Mem.head _)))))
      obtain ⟨v5, hv5⟩ := (errOf_eq_none _).mp
        (hcb ("email", errOf (checkEmail raw))
          (List.Mem.tail _ (List.Mem.tail _ (List.Mem.tail _
            (List.Mem.tail _ (List.Mem.head _))))))
      obtain ⟨v6, hv6⟩ := (errOf_eq_none _).mp
        (hcb ("married", errOf (checkMarried raw))
          (List.Mem.tail _ (List.Mem.tail _ (List.Mem.tail _
            (List.Mem.tail _ (List.Mem.tail _ (List.Mem.head _)))))))
      simp [Patient.fieldErrors, Patient.fieldOutcomes, hv1, hv2, hv3, hv4, hv5,
        hv6, checkAllergies_of_missing raw habs, errOf]
    · obtain ⟨v1, hv1⟩ := (errOf_eq_none _).mp
        (hcb ("name", errOf (checkName raw)) (List.Mem.head _))
      obtain ⟨v2, hv2⟩ := (errOf_eq_none _).mp
        (hcb ("age", errOf (checkAge raw)) (List.Mem.tail _ (List.Mem.head _)))
      obtain ⟨v3, hv3⟩ := (errOf_eq_none _).mp
        (hcb ("weight", errOf (checkWeight raw))
          (List.Mem.tail _ (List.Mem.tail _ (List.Mem.head _))))
      obtain ⟨v4, hv4⟩ := (errOf_eq_none _).mp
        (hcb ("linkedin_url", errOf (checkUrl raw))
          (List.Mem.tail _ (List.Mem.tail _ (List.Mem.tail _ (List.Mem.head _)))))
      obtain ⟨v5, hv5⟩ := (errOf_eq_none _).mp
        (hcb ("email", errOf (checkEmail raw))
          (List.Mem.tail _ (List.Mem.tail _ (List.Mem.tail _
            (List.Mem.tail _ (List.Mem.head _))))))
      obtain ⟨v6, hv6⟩ := (errOf_eq_none _).mp
        (hcb ("married", errOf (checkMarried raw))
          (List.Mem.tail _ (List.Mem.tail _ (List.Mem.tail _
            (List.Mem.tail _ (List.Mem.tail _ (List.Mem.head _)))))))
      obtain ⟨v7, hv7⟩ := (errOf_eq_none _).mp
        (hcb ("allergies", errOf (checkAllergies raw))
          (List.Mem.tail _ (List.Mem.tail _ (List.Mem.tail _
            (List.Mem.tail _ (List.Mem.tail _ (List.Mem.tail _ (List.Mem.head _))))))))
      simp [Patient.fieldErrors, Patient.fieldOutcomes, hv1, hv2, hv3, hv4, hv5,
        hv6, hv7, checkContactz_of_missing raw habs, errOf]

/-- Witness for C3 (amended): in the raw input `{"name": "pratik"}` the
required field `age` is absent and the field before it validates, so
construction fails with `MissingFieldError "age"`. -/
theorem c3_missing_required_field_witness :
    (∃ e, Patient.construct [("name", Value.str "pratik")] = .error e) ∧
    Patient.construct [("name", Value.str "pratik")] =
      .error (.missingField "age") := by
  have h := c3_missing_required_field [("name", Value.str "pratik")] "age"
    (by decide) rfl
  exact ⟨h.1, h.2 (by decide)⟩

theorem guard_ok {α : Type} {c : Prop} [Decidable c] {x w : α}
    {er : ValidationError}
    (h : (if c then (pure x : Except ValidationError α) else throw er) = .ok w) :
    c ∧ x = w := by
  by_cases hc : c
  · rw [if_pos hc] at h
    exact ⟨hc, Except.ok.inj h⟩
  · rw [if_neg hc] at h
    exact absurd (show Except.error er = Except.ok w from h) (by simp)

theorem checkWeight_ok {raw : RawInput} {w : ℚ}
    (h : checkWeight raw = .ok w) : 0 < w ∧ w < 120 := by
  unfold checkWeight at h
  cases hx : reqField raw "weight" >>= asFloat "weight" with
  | error e =>
    rw [hx, except_bind_err] at h
    exact absurd h (by simp)
  | ok v =>
    rw [hx, except_bind_ok] at h
    obtain ⟨hc, rfl⟩ := guard_ok h
    exact hc

theorem checkUrl_ok {raw : RawInput} {u : String}
    (h : checkUrl raw = .ok u) : isValidUrl u = true := by
  unfold checkUrl at h
  cases hx : reqField raw "linkedin_url" >>= asStr "linkedin_url" with
  | error e =>
    rw [hx, except_bind_err] at h
    exact absurd h (by simp)
  | ok v =>
    rw [hx, except_bind_ok] at h
    obtain ⟨hc, rfl⟩ := guard_ok h
    exact hc

theorem checkEmail_ok {raw : RawInput} {em : String}
    (h : checkEmail raw = .ok em) : isValidEmail em = true := by
  unfold checkEmail at h
  cases hx : reqField raw "email" >>= asStr "email" with
  | error e =>
    rw [hx, except_bind_err] at h
    exact absurd h (by simp)
  | ok v =>
    rw [hx, except_bind_ok] at h
    obtain ⟨hc, rfl⟩ := guard_ok h
    exact hc

/-- C7: every successfully constructed `Patient` instance satisfies all of
its schema's declared constraints — the `weight` bounds `gt=0, lt=120` and
the `linkedin_url`/`email` patterns.  The embedding is purely functional, so
an instance is immutable after construction (the only operations, projection
and `model_dump`, return values without modifying it), and this invariant is
therefore permanent. -/
theorem c7_instances_satisfy_constraints (raw : RawInput) (p : Patient)
    (h : Patient.construct raw = .ok p) :
    0 < p.weight ∧ p.weight < 120 ∧ isValidUrl p.linkedin_url = true ∧
    isValidEmail p.email = true := by
  rw [construct_ok_iff] at h
  obtain ⟨-, -, hw, hu, he, -, -, -⟩ := h
  obtain ⟨hw1, hw2⟩ := checkWeight_ok hw
  exact ⟨hw1, hw2, checkUrl_ok hu, checkEmail_ok he⟩

/-- Witness for C7: the instance constructed from the concrete
`patient_info` of `field_validator.py` satisfies all declared constraints. -/
theorem c7_instances_satisfy_constraints_witness :
    (0:ℚ) < 2267/50 ∧ (2267/50:ℚ) < 120 ∧
    isValidUrl "https://chatgpt.com/c/692d18b8-a5e0-8320-9b79-b6cc4e8cf5e1" = true ∧
    isValidEmail "pratik@gmail.com" = true := by
  have hc := construct_patientInfoW (2267/50)
  rw [if_pos (by norm_num : (0:ℚ) < 2267/50 ∧ (2267/50:ℚ) < 120)] at hc
  exact c7_instances_satisfy_constraints (patientInfoW (.rat (2267/50))) _ hc

end FieldValidator

theorem mapM_str_loop (ss : List String) (acc : List String) :
    List.mapM.loop strOfValue (ss.map Value.str) acc =
      some (acc.reverse ++ ss) := by
  induction ss generalizing acc with
  | nil => simp [List.mapM.loop]
  | cons s rest ih => simp [List.mapM.loop, strOfValue, ih]

theorem mapM_strPair_loop (kvs : List (String × String))
    (acc : List (String × String)) :
    List.mapM.loop strPairOfValue
      (kvs.map fun kv => (kv.1, Value.str kv.2)) acc =
      some (acc.reverse ++ kvs) := by
  induction kvs generalizing acc with
  | nil => simp [List.mapM.loop]
  | cons kv rest ih =>
    obtain ⟨k, v⟩ := kv
    simp [List.mapM.loop, strPairOfValue, ih]

theorem mapM_map_str (ss : List String) :
    List.mapM strOfValue (ss.map Value.str) = some ss := by
  simpa [List.mapM] using mapM_str_loop ss []

theorem mapM_map_strPair (kvs : List (String × String)) :
    List.mapM strPairOfValue (kvs.map fun kv => (kv.1, Value.str kv.2)) =
      some kvs := by
  simpa [List.mapM] using mapM_strPair_loop kvs []

/-- C8: for the `User` schema of `serialization.py`, any raw input whose
declared fields `name` and `age` are present and well typed constructs
successfully regardless of extra undeclared keys, and no undeclared key
appears in the exported mapping. -/
theorem c8_unknown_keys_ignored (raw : RawInput) (n : String) (a : ℤ)
    (hn : lookupRaw raw "name" = some (.str n))
    (ha : lookupRaw raw "age" = some (.int a)) :
    Serialization.User.construct raw = .ok ⟨n, a⟩ ∧
    ∀ f : String, f ∉ Serialization.User.fieldNames →
      lookupRaw (Serialization.User.model_dump ⟨n, a⟩) f = none := by
  constructor
  · unfold Serialization.User.construct reqField
    simp only [hn, ha]
    rfl
  · intro f hf
    simp only [Serialization.User.fieldNames, List.mem_cons,
      List.not_mem_nil, or_false, not_or] at hf
    obtain ⟨h1, h2⟩ := hf
    have b1 : ("name" == f) = false := beq_eq_false_iff_ne.mpr (Ne.symm h1)
    have b2 : ("age" == f) = false := beq_eq_false_iff_ne.mpr (Ne.symm h2)
    simp [Serialization.User.model_dump, lookupRaw, List.find?, b1, b2]

/-- Witness for C8: the raw input with the extra key `"nickname": "P"`
constructs successfully and `nickname` is absent from the export. -/
theorem c8_unknown_keys_ignored_witness :
    Serialization.User.construct
      [("name", Value.str "Pratik"), ("age", Value.int 19),
       ("nickname", Value.str "P")] = .ok ⟨"Pratik", 19⟩ ∧
    lookupRaw (Serialization.User.model_dump ⟨"Pratik", 19⟩) "nickname" = none := by
  have h := c8_unknown_keys_ignored
    [("name", Value.str "Pratik"), ("age", Value.int 19),
     ("nickname", Value.str "P")] "Pratik" 19 rfl rfl
  exact ⟨h.1, h.2 "nickname" (by decide)⟩

/-- C1: round-trip — for the `User` schema of `serialization.py` and the
`Patient` schema of `field_validator.py`, every raw input whose declared
fields are present with their declared types and satisfy all declared
constraints constructs successfully, and `model_dump` of the constructed
instance maps every declared (non-computed) field to exactly the value
supplied in the input. -/
theorem c1_export_round_trip :
    (∀ (raw : RawInput) (n : String) (a : ℤ),
      lookupRaw raw "name" = some (.str n) →
      lookupRaw raw "age" = some (.int a) →
      ∃ u, Serialization.User.construct raw = .ok u ∧
        ∀ f ∈ Serialization.User.fieldNames,
          lookupRaw (Serialization.User.model_dump u) f = lookupRaw raw f) ∧
    (∀ raw : RawInput, FieldValidator.Patient.validInput raw →
      ∃ p, FieldValidator.Patient.construct raw = .ok p ∧
        ∀ f ∈ FieldValidator.Patient.fieldNames,
          lookupRaw (FieldValidator.Patient.model_dump p) f = lookupRaw raw f) := by
  constructor
  · intro raw n a hn ha
    refine ⟨⟨n, a⟩, ?_, ?_⟩
    · unfold Serialization.User.construct reqField
      simp only [hn, ha]
      rfl
    · intro f hf
      fin_cases hf
      · rw [hn]
        rfl
      · rw [ha]
        rfl
  · intro raw hv
    obtain ⟨⟨s, hs⟩, ⟨n, hn⟩, ⟨w, hw, hw1, hw2⟩, ⟨u, hu, huv⟩, ⟨em, he, hev⟩,
      ⟨b, hb⟩, ⟨ss, hss⟩, ⟨kvs, hk⟩⟩ := hv
    have hcn : FieldValidator.checkName raw = .ok s := by
      unfold FieldValidator.checkName reqField
      rw [hs]
      rfl
    have hca : FieldValidator.checkAge raw = .ok n := by
      unfold FieldValidator.checkAge reqField
      rw [hn]
      rfl
    have hcw : FieldValidator.checkWeight raw = .ok w := by
      unfold FieldValidator.checkWeight reqField
      rw [hw]
      show (if 0 < w ∧ w < 120 then (pure w : Except ValidationError ℚ)
            else throw (.constraintError "weight")) = .ok w
      rw [if_pos ⟨hw1, hw2⟩]
      rfl
    have hcu : FieldValidator.checkUrl raw = .ok u := by
      unfold FieldValidator.checkUrl reqField
      rw [hu]
      show (if isValidUrl u = true then (pure u : Except ValidationError String)
            else throw (.constraintError "linkedin_url")) = .ok u
      rw [if_pos huv]
      rfl
    have hce : FieldValidator.checkEmail raw = .ok em := by
      unfold FieldValidator.checkEmail reqField
      rw [he]
      show (if isValidEmail em = true then (pure em : Except ValidationError String)
            else throw (.constraintError "email")) = .ok em
      rw [if_pos hev]
      rfl
    have hcm : FieldValidator.checkMarried raw = .ok (some b) := by
      unfold FieldValidator.checkMarried
      rw [hb]
    have hcal : FieldValidator.checkAllergies raw = .ok ss := by
      unfold FieldValidator.checkAllergies reqField
      rw [hss]
      show asStrList "allergies" (.list (ss.map .str)) = .ok ss
      simp [asStrList, mapM_map_str, mapM_str_loop]
    have hcc : FieldValidator.checkContactz raw = .ok kvs := by
      unfold FieldValidator.checkContactz reqField
      rw [hk]
      show asStrMap "contactz_details"
        (.map (kvs.map fun kv => (kv.1, Value.str kv.2))) = .ok kvs
      simp [asStrMap, mapM_map_strPair, mapM_strPair_loop]
    refine ⟨⟨s, n, w, u, em, some b, ss, kvs⟩, ?_, ?_⟩
    · exact (FieldValidator.construct_ok_iff raw _).mpr
        ⟨hcn, hca, hcw, hcu, hce, hcm, hcal, hcc⟩
    · intro f hf
      fin_cases hf
      · rw [hs]
        rfl
      · rw [hn]
        rfl
      · rw [hw]
        rfl
      · rw [hu]
        rfl
      · rw [he]
        rfl
      · rw [hb]
        rfl
      · rw [hss]
        rfl
      · rw [hk]
        rfl

/-- Witness for C1: the concrete inputs of `serialization.py` and
`field_validator.py` satisfy the validity hypotheses and construct
successfully. -/
theorem c1_export_round_trip_witness :
    FieldValidator.Patient.validInput FieldValidator.patientInfo ∧
    (∃ u, Serialization.User.construct
      [("name", Value.str "Pratik"), ("age", Value.int 19)] = .ok u) ∧
    (∃ p, FieldValidator.Patient.construct FieldValidator.patientInfo = .ok p) := by
  have hv : FieldValidator.Patient.validInput FieldValidator.patientInfo :=
    ⟨⟨"pratik", rfl⟩, ⟨19, rfl⟩, ⟨2267/50, rfl, by norm_num, by norm_num⟩,
     ⟨"https://chatgpt.com/c/692d18b8-a5e0-8320-9b79-b6cc4e8cf5e1", rfl, rfl⟩,
     ⟨"pratik@gmail.com", rfl, rfl⟩, ⟨true, rfl⟩, ⟨["pratik"], rfl⟩,
     ⟨[("phone", "8788417313")], rfl⟩⟩
  obtain ⟨u, hu, -⟩ := c1_export_round_trip.1
    [("name", Value.str "Pratik"), ("age", Value.int 19)] "Pratik" 19 rfl rfl
  obtain ⟨p, hp, -⟩ := c1_export_round_trip.2 FieldValidator.patientInfo hv
  exact ⟨hv, ⟨u, hu⟩, ⟨p, hp⟩⟩

/-- C4: for the schema of `computed_filed.py`, the raw input
`weight=70, height=1.75` (which contains no `BMI` key) constructs
successfully, and the exported mapping carries the computed field
`BMI = round(70 / 1.75^2, 2) = 22.86`, derived only from the validated
`weight` and `height` fields.  `1.75 = 7/4` and `22.86 = 2286/100`. -/
theorem c4_computed_bmi :
    lookupRaw [("weight", Value.int 70), ("height", Value.rat (7/4))] "BMI" =
      none ∧
    ComputedField.Patient.construct
      [("weight", Value.int 70), ("height", Value.rat (7/4))] =
      .ok ⟨70, 7/4⟩ ∧
    ComputedField.Patient.model_dump ⟨70, 7/4⟩ =
      some [("weight", .rat 70), ("height", .rat (7/4)),
            ("BMI", .rat (2286/100))] := by
  have hbmi : ComputedField.Patient.BMI ⟨70, 7/4⟩ = some (2286/100) := by
    have hround : ComputedField.pyround2 ((70:ℚ) / (7/4) ^ 2) = 2286/100 := by
      have harg : ((70:ℚ) / (7/4) ^ 2) * 100 = 112000/49 := by norm_num
      have hfloor : ⌊(112000/49 : ℚ)⌋ = 2285 := by
        norm_num [Int.floor_eq_iff]
      unfold ComputedField.pyround2 ComputedField.roundHalfEven
      rw [harg, hfloor]
      rw [if_neg (by norm_num), if_pos (by norm_num)]
      norm_num
    simp only [ComputedField.Patient.BMI, ComputedField.pydiv]
    rw [if_neg (show ¬((7/4:ℚ) ^ 2 = 0) by norm_num)]
    simp [hround]
  refine ⟨rfl, rfl, ?_⟩
  simp [ComputedField.Patient.model_dump, hbmi]

/-- C9: for the nested schema of `nested_models.py`, constructing the parent
from a raw input whose `address` entry is the sub-mapping
`{"city": "Sangli", "state": "Maharashtra", "pincode": 416312}` succeeds, and
the exported parent mapping's `address` entry is a plain mapping holding
exactly those three keys with those values. -/
theorem c9_nested_address :
    NestedModels.Patient.construct
      [("name", Value.str "Pratik"), ("age", Value.int 19),
       ("address", Value.map
         [("city", Value.str "Sangli"), ("state", Value.str "Maharashtra"),
          ("pincode", Value.int 416312)])] =
      .ok ⟨"Pratik", 19, ⟨"Sangli", "Maharashtra", 416312⟩⟩ ∧
    lookupRaw
      (NestedModels.Patient.model_dump
        ⟨"Pratik", 19, ⟨"Sangli", "Maharashtra", 416312⟩⟩) "address" =
      some (Value.map
        [("city", Value.str "Sangli"), ("state", Value.str "Maharashtra"),
         ("pincode", Value.int 416312)]) :=
  ⟨rfl, rfl⟩

/-- C10 (implicit): the `height` field of the computed-field `Patient`
schema carries no constraint excluding zero, so construction with
`weight=70, height=0` succeeds; but the computed `BMI` then divides by
`height^2 = 0`, so its derivation (and hence the export) is not total over
validated instances — embedded as `none`, mirroring Python's
`ZeroDivisionError`. -/
theorem c10_bmi_division_by_zero :
    ComputedField.Patient.construct
      [("weight", Value.int 70), ("height", Value.int 0)] = .ok ⟨70, 0⟩ ∧
    ((0:ℚ) ^ 2 = 0 ∧ ComputedField.Patient.BMI ⟨70, 0⟩ = none) ∧
    ComputedField.Patient.model_dump ⟨70, 0⟩ = none := by
  have hbmi : ComputedField.Patient.BMI ⟨70, 0⟩ = none := by
    simp [ComputedField.Patient.BMI, ComputedField.pydiv]
  refine ⟨rfl, ⟨by norm_num, hbmi⟩, ?_⟩
  simp [ComputedField.Patient.model_dump, hbmi]
